import Mathlib

/-!
Shallow embedding of src/pycheckoutcli/pycheckoutcli.py (class CheckoutCli),
a client for the Checkout PSP HTTP API.  Python runtime values that flow
through the dynamically typed validation code are embedded as the inductive
type Val; Python exceptions become the inductive type Err, and every fallible
operation returns Except Err.  The transport layer (the requests library) is
external: send_request takes the transport response as an explicit argument,
and create_payment returns a SendCall record describing how send_request is
invoked at line 475.  Source line numbers are cited throughout.
-/

/-- Python exceptions raised by the module.  The mapping to the abstract
error taxonomy used by the specification: MissingCredential, MissingParameter
and MissingMandatoryKey are the KeyError/ValueError raises carrying the
corresponding messages; UnsupportedCurrency, InvalidLanguageCode,
InvalidCountryCode and InvalidNumericType are ValueError raises; ApiError is
the bare Exception raised in send_request (line 210); nameError and
unboundLocalError model Python NameError / UnboundLocalError for reads of
undefined variables. -/
inductive Err where
  | keyError : String → Err
  | valueError : String → Err
  | typeError : String → Err
  | nameError : String → Err
  | unboundLocalError : String → Err
  | exception : String → Err
deriving DecidableEq

/-- Python runtime values appearing in the payloads handled by the module:
strings, ints, lists, dicts (association lists of string keys in insertion
order, as Python 3.7+ dicts iterate), and None. -/
inductive Val where
  | str : String → Val
  | int : Int → Val
  | list : List Val → Val
  | dict : List (String × Val) → Val
  | none : Val

/-- A Python value that is a str or None (parameters such as transaction ids
and nonces), injected into Val. -/
def optStrToVal : Option String → Val
  | Option.none => Val.none
  | some s => Val.str s

/-- Python == between an arbitrary value and a str: true only when the value
is an equal str (cross-type comparison is False). -/
def valEqStr : Val → String → Bool
  | Val.str s, t => s = t
  | _, _ => false

/-- dict.get-style lookup in an embedded Python dict (first matching key). -/
def dictGet : List (String × Val) → String → Option Val
  | [], _ => Option.none
  | (k, v) :: rest, key => if k = key then some v else dictGet rest key

/-- Python `key in d` for a dict d: membership among the keys. -/
def dictHasKey : List (String × Val) → String → Bool
  | [], _ => false
  | (k, _) :: rest, key => k = key || dictHasKey rest key

/-- Python `key in xs` for a list xs: == between the string key and each
element. -/
def listHasStr : List Val → String → Bool
  | [], _ => false
  | x :: rest, key => valEqStr x key || listHasStr rest key

/-- Membership of a string in a list of strings (Python `in` over
_accepted_api_type). -/
def listHasString : List String → String → Bool
  | [], _ => false
  | x :: rest, s => x = s || listHasString rest s

/-- Byte-wise (code-point) comparison of char lists, the order Python sorted
uses on strings. -/
def charListLeB : List Char → List Char → Bool
  | [], _ => true
  | _ :: _, [] => false
  | a :: as, b :: bs =>
    if a.val < b.val then true
    else if b.val < a.val then false
    else charListLeB as bs

/-- Insertion step of the string sort. -/
def insertStr (x : String) : List String → List String
  | [] => [x]
  | y :: rest => if charListLeB x.data y.data then x :: y :: rest else y :: insertStr x rest

/-- Python sorted on a collection of strings (ascending code-point order). -/
def sortStrings : List String → List String
  | [] => []
  | x :: rest => insertStr x (sortStrings rest)

/-- Is one char list a prefix of another (helper for Python substring
membership). -/
def listPrefixB : List Char → List Char → Bool
  | [], _ => true
  | _ :: _, [] => false
  | a :: as, b :: bs => a = b && listPrefixB as bs

/-- Is one char list an infix of another. -/
def listInfixB (needle : List Char) : List Char → Bool
  | [] => listPrefixB needle []
  | b :: bs => listPrefixB needle (b :: bs) || listInfixB needle bs

/-- Python `needle in hay` for strings: substring test. -/
def strInB (needle hay : String) : Bool := listInfixB needle.data hay.data

/-- Python `key in container` as used by validate_data_dict (line 241): key
lookup for dicts, element == for lists, substring for strings; iterating a
non-container raises TypeError. -/
def pyContains (container : Val) (key : String) : Except Err Bool :=
  match container with
  | Val.dict kvs => Except.ok (dictHasKey kvs key)
  | Val.list xs => Except.ok (listHasStr xs key)
  | Val.str s => Except.ok (strInB key s)
  | _ => Except.error (Err.typeError "argument of type is not iterable")

/-- Python subscript container[key] with a string key (line 245): dict lookup
raising KeyError when absent; indexing a list with a str raises TypeError. -/
def Val.getItem : Val → String → Except Err Val
  | Val.dict kvs, key =>
    match dictGet kvs key with
    | some v => Except.ok v
    | Option.none => Except.error (Err.keyError key)
  | Val.list _, _ => Except.error (Err.typeError "list indices must be integers or slices, not str")
  | _, _ => Except.error (Err.typeError "object is not subscriptable")

/-- Whether an embedded computation raised (used to state that an operation
fails with an uncaught error). -/
def isErr {α : Type} : Except Err α → Bool
  | Except.error _ => true
  | Except.ok _ => false

/-- The state a constructed CheckoutCli instance carries (lines 20-24 and
36-54): mode flag, base endpoint, merchant id, secret key and the fixed
algorithm name. -/
structure CheckoutCli where
  is_test_mode : Int
  base_api_end_point : String
  merchant_id : String
  secret_key : String
  algorithm : String

/-- CheckoutCli.__init__ (lines 29-54).  is_test_mode == 1 selects the fixed
sandbox credentials regardless of the supplied ones; otherwise a None
merchant id or secret key raises KeyError.  Only the is-None checks exist in
the source: empty strings are stored as given.  Logging setup is external
and elided. -/
def CheckoutCli.init (is_test_mode : Int) (merchant_id : Option String)
    (secret_key : Option String) : Except Err CheckoutCli :=
  if is_test_mode = 1 then
    Except.ok { is_test_mode := is_test_mode,
                base_api_end_point := "https://api.checkout.fi",
                merchant_id := "375917",
                secret_key := "SAIPPUAKAUPPIAS",
                algorithm := "sha256" }
  else
    match merchant_id with
    | Option.none => Except.error (Err.keyError "Missing merchant id")
    | some m =>
      match secret_key with
      | Option.none => Except.error (Err.keyError "Missing secret key")
      | some s =>
        Except.ok { is_test_mode := is_test_mode,
                    base_api_end_point := "https://api.checkout.fi",
                    merchant_id := m,
                    secret_key := s,
                    algorithm := "sha256" }

/-- The client produced by test-mode construction. -/
def test_mode_cli : CheckoutCli :=
  { is_test_mode := 1,
    base_api_end_point := "https://api.checkout.fi",
    merchant_id := "375917",
    secret_key := "SAIPPUAKAUPPIAS",
    algorithm := "sha256" }

/-- validate_trans_id_data (lines 72-75): a None or empty transaction id
raises ValueError. -/
def validate_trans_id_data (transaction_id : Option String) : Except Err Unit :=
  match transaction_id with
  | Option.none => Except.error (Err.valueError "Undefined transaction id")
  | some t =>
    if t = "" then Except.error (Err.valueError "Undefined transaction id")
    else Except.ok ()

/-- get_post_url (lines 77-90).  The unreachable str + None concatenation in
the transaction branches (validate_trans_id_data has already raised for a
None id) is rendered as the TypeError Python would raise there.  An
unrecognized api_type leaves post_url as None and returns it. -/
def get_post_url (self : CheckoutCli) (api_type : String)
    (transaction_id : Option String) : Except Err (Option String) :=
  if api_type = "Payments" then
    Except.ok (some (self.base_api_end_point ++ "/payments"))
  else if api_type = "PaymentDetails" then do
    validate_trans_id_data transaction_id
    match transaction_id with
    | some t => Except.ok (some (self.base_api_end_point ++ "/payments/" ++ t))
    | Option.none => Except.error (Err.typeError "can only concatenate str")
  else if api_type = "Refund" then do
    validate_trans_id_data transaction_id
    match transaction_id with
    | some t => Except.ok (some (self.base_api_end_point ++ "/payments/" ++ t ++ "/refund"))
    | Option.none => Except.error (Err.typeError "can only concatenate str")
  else if api_type = "ListProviders" then
    Except.ok (some (self.base_api_end_point ++ "/merchants/payment-providers"))
  else
    Except.ok Option.none

/-- The class attribute _accepted_api_type (line 25). -/
def accepted_api_type : List String := ["Payments", "PaymentDetails", "Refund", "ListProviders"]

/-- get_req_header_dict (lines 92-117).  now_strftime stands for the string
datetime.now().strftime of format %Y-%m-%dT%H%M%S computed at line 104; it is
an input because the current time is external.  The local variable time_stamp
is assigned only in the time_stamp_string-is-None branch (lines 102-104), so
building the dict at line 111 reads an unassigned local and raises
UnboundLocalError whenever a timestamp string is supplied. -/
def get_req_header_dict (self : CheckoutCli) (now_strftime : String)
    (api_type : String) (method : String) (request_id : Option String)
    (trans_id : Option String) (time_stamp_string : Option String) :
    Except Err (List (String × Val)) :=
  if listHasString accepted_api_type api_type then
    if (api_type = "PaymentDetails" ∨ api_type = "Refund") ∧ trans_id = Option.none then
      Except.error (Err.keyError "Missing data to trans_id parameter")
    else
      let time_stamp : Option String :=
        match time_stamp_string with
        | Option.none => some now_strftime
        | some _ => Option.none
      match time_stamp with
      | Option.none => Except.error (Err.unboundLocalError "time_stamp")
      | some ts =>
        let header_dict : List (String × Val) :=
          [("checkout-account", Val.str self.merchant_id),
           ("checkout-algorithm", Val.str self.algorithm),
           ("checkout-method", Val.str method),
           ("checkout-nonce", optStrToVal request_id),
           ("checkout-timestamp", Val.str ts)]
        Except.ok (header_dict ++
          (if api_type = "PaymentDetails" ∨ api_type = "Refund" then
            [("checkout-transaction-id", optStrToVal trans_id)]
          else []))
  else
    Except.error (Err.valueError "Invalid value in api_type parameter")

/-- get_hash_sha256 (lines 119-167).  Both call sites pass kwargs holding the
two keys headers and body, so the empty-kwargs guard of lines 126-127 never
fires and the function is embedded over those two arguments.  Line 133 binds
header_dict to sorted(kwargs["headers"]), which for a dict argument is the
sorted LIST of its keys; the loop of lines 139-143 then evaluates
header_dict[key] with a string key, raising TypeError on the first iteration
whenever the header set is non-empty.  When the header set is empty the loop
body never runs and execution reaches line 153, where sys.version_info is
read although the sys module is never imported, raising NameError (hashlib
at line 161 is equally unimported).  The function therefore raises on every
input and never returns a digest. -/
def get_hash_sha256 (secret_key : String) (headers : List (String × Val))
    (body : Option String) : Except Err String :=
  let header_dict : List String := sortStrings (headers.map Prod.fst)
  match sortStrings header_dict with
  | _ :: _ => Except.error (Err.typeError "list indices must be integers or slices, not str")
  | [] =>
    let items : List String :=
      match body with
      | some b => [b]
      | Option.none => []
    let plain_text := String.intercalate "\n" items
    let plain_text := if body.isNone then plain_text ++ "\n" else plain_text
    let _ := plain_text
    let _ := secret_key
    Except.error (Err.nameError "sys")

/-- The status code and raw body of a transport (requests library) response. -/
structure HttpResponse where
  status_code : Nat
  content : String
deriving DecidableEq

/-- send_request (lines 169-212).  The actual requests.post / requests.get
call is the external transport; its response is the transport_res argument.
headers is the **headers kwargs dict and thus never None, so the default
headers of lines 182-186 are dead.  A status code other than 200 and 201
raises a bare Exception whose only payload is the response content (line
208-210); the status code itself is logged but not attached to the raised
error.  No retry exists. -/
def send_request (send_method : String) (api_post_url : Option String)
    (req_input : Option Val) (headers : List (String × Val))
    (transport_res : HttpResponse) : Except Err HttpResponse :=
  match api_post_url with
  | Option.none => Except.error (Err.valueError "Need post URL data")
  | some u =>
    if u = "" then Except.error (Err.valueError "Need post URL data")
    else
      let _ := send_method
      let _ := req_input
      let _ := headers
      let res_obj := transport_res
      if res_obj.status_code ≠ 200 ∧ res_obj.status_code ≠ 201 then
        Except.error (Err.exception res_obj.content)
      else
        Except.ok res_obj

/-- get_create_payment_keys (lines 214-217): the mandatory top-level keys of
a payment-creation payload. -/
def get_create_payment_keys : List String :=
  ["stamp", "reference", "amount", "currency", "language", "items", "customer",
   "deliveryAddress", "invoicingAddress", "redirectUrls", "callbackUrls"]

/-- The for-loop of validate_create_payment_input (lines 224-228):
kwargs.get(key, None) is None raises ValueError naming the key. -/
def validate_create_payment_input_loop (kwargs : List (String × Val)) :
    List String → Except Err Unit
  | [] => Except.ok ()
  | key :: rest =>
    match (dictGet kwargs key).getD Val.none with
    | Val.none => Except.error (Err.valueError ("Missing " ++ key ++ " parameter"))
    | _ => validate_create_payment_input_loop kwargs rest

/-- validate_create_payment_input (lines 219-230), receiving the payload dict
through ** expansion. -/
def validate_create_payment_input (kwargs : List (String × Val)) : Except Err Unit :=
  match kwargs with
  | [] => Except.error (Err.keyError "Expect input parameters")
  | _ => validate_create_payment_input_loop kwargs get_create_payment_keys

/-- The for-loop of validate_data_dict (lines 239-248): for each mandatory
key, `key not in data_dict` raises Missing mandatory key, then a None stored
value raises Invalid value. -/
def validate_data_dict_loop (data_dict : Val) :
    List (String × Bool) → Except Err Unit
  | [] => Except.ok ()
  | (key, mandatory) :: rest =>
    if mandatory then do
      let contained ← pyContains data_dict key
      if contained then do
        let value ← Val.getItem data_dict key
        match value with
        | Val.none => Except.error (Err.keyError ("Invalid value in " ++ key ++ " parameter"))
        | _ => validate_data_dict_loop data_dict rest
      else
        Except.error (Err.keyError ("Missing mandatory key: " ++ key))
    else
      validate_data_dict_loop data_dict rest

/-- validate_data_dict (lines 232-249).  Every call site passes a literal
key_dict, so its is-None guard (lines 233-234) never fires and key_dict is
embedded as the list of (key, mandatory) pairs in source order. -/
def validate_data_dict (key_dict : List (String × Bool)) (data_dict : Val) :
    Except Err Unit :=
  match data_dict with
  | Val.none => Except.error (Err.keyError "Missing value in data_dict parameter")
  | _ => validate_data_dict_loop data_dict key_dict

/-- validate_customer_key_value_in_create_payment (lines 251-265). -/
def validate_customer_key_value_in_create_payment (customer_dict : Val) :
    Except Err Unit :=
  match customer_dict with
  | Val.none => Except.error (Err.keyError "Missing customer_dict parameter")
  | _ =>
    let keySet : List (String × Bool) :=
      [("firstName", true), ("lastName", true), ("email", true),
       ("phone", false), ("vatId", false)]
    validate_data_dict keySet customer_dict

/-- validate_language_code2 (lines 267-282): None raises KeyError, a non-str
raises ValueError, a code longer than 2 characters raises ValueError, and a
code other than FI, SV and EN raises ValueError. -/
def validate_language_code2 (language_code : Val) : Except Err Unit :=
  match language_code with
  | Val.none => Except.error (Err.keyError "Missing language_code parameter")
  | Val.str s =>
    if s.length > 2 then
      Except.error (Err.valueError "Invalid language code value length. Expected 2 letters of language code")
    else if s ≠ "FI" ∧ s ≠ "SV" ∧ s ≠ "EN" then
      Except.error (Err.valueError "Invalid value. Support only FI, SV and EN")
    else Except.ok ()
  | _ => Except.error (Err.valueError "Expect string data type for language parameter")

/-- validate_address_value_in_create_payment (lines 284-309).  After
validate_data_dict succeeds, line 299 evaluates isinstance(value, ...) where
value is a local variable of validate_data_dict and is not defined in this
scope, so every address whose mandatory keys pass raises NameError.  The
country length check of lines 302-304 and the data_dict["country"].upper()
call of line 307 (whose result the source discards) are unreachable. -/
def validate_address_value_in_create_payment (data_dict : Val) : Except Err Unit :=
  match data_dict with
  | Val.none => Except.error (Err.keyError "Missing data_dict parameter")
  | _ => do
    let keySet : List (String × Bool) :=
      [("streetAddress", true), ("postalCode", true), ("city", true),
       ("county", false), ("country", true)]
    validate_data_dict keySet data_dict
    Except.error (Err.nameError "value")

/-- validate_int_value (lines 311-316): a value that is not an int raises
ValueError naming the key. -/
def validate_int_value (key : String) (value : Val) : Except Err Unit :=
  match value with
  | Val.int _ => Except.ok ()
  | _ => Except.error (Err.valueError ("Expect int value in " ++ key ++ " parameter"))

/-- validate_item_data_in_create_payment (lines 318-344), written for one
item dict: mandatory keys via validate_data_dict, then int checks on
unitPrice, units and vatPercentage. -/
def validate_item_data_in_create_payment (data_dict : Val) : Except Err Unit :=
  match data_dict with
  | Val.none => Except.error (Err.keyError "Missing data_dict parameter")
  | _ => do
    let keySet : List (String × Bool) :=
      [("unitPrice", true), ("units", true), ("vatPercentage", true),
       ("productCode", true), ("deliveryDate", true), ("description", false),
       ("category", false), ("stamp", false), ("reference", false),
       ("merchant", false), ("commission", false)]
    validate_data_dict keySet data_dict
    let v1 ← Val.getItem data_dict "unitPrice"
    validate_int_value "unitPrice" v1
    let v2 ← Val.getItem data_dict "units"
    validate_int_value "units" v2
    let v3 ← Val.getItem data_dict "vatPercentage"
    validate_int_value "vatPercentage" v3

/-- validate_callback_urls_data (lines 346-359): success and cancel are
mandatory; the https scheme check is only a comment in the source. -/
def validate_callback_urls_data (data_dict : Val) : Except Err Unit :=
  match data_dict with
  | Val.none => Except.error (Err.keyError "Missing data_dict parameter")
  | _ =>
    let keySet : List (String × Bool) := [("success", true), ("cancel", true)]
    validate_data_dict keySet data_dict

/-- The single item record inside the canned payload (lines 369-384). -/
def test_payment_item : Val :=
  Val.dict
    [("unitPrice", Val.int 1590),
     ("units", Val.int 1),
     ("vatPercentage", Val.int 24),
     ("productCode", Val.str "#927502759"),
     ("deliveryDate", Val.str "2018-03-07"),
     ("description", Val.str "Cat ladder"),
     ("category", Val.str "shoe"),
     ("merchant", Val.int 375917),
     ("stamp", Val.int 29858472952),
     ("reference", Val.int 9187445),
     ("commission", Val.dict [("merchant", Val.str "string"), ("amount", Val.int 0)])]

/-- The address record used for both deliveryAddress and invoicingAddress in
the canned payload (lines 393-406; the two literals are identical). -/
def test_delivery_address : Val :=
  Val.dict
    [("streetAddress", Val.str "Fake street 123"),
     ("postalCode", Val.str "00100"),
     ("city", Val.str "Luleå"),
     ("county", Val.str "Norrbotten"),
     ("country", Val.str "Sweden")]

/-- The customer record of the canned payload (lines 386-392). -/
def test_customer : Val :=
  Val.dict
    [("email", Val.str "john.doe@example.org"),
     ("firstName", Val.str "John"),
     ("lastName", Val.str "Doe"),
     ("phone", Val.int 358501234567),
     ("vatId", Val.str "FI02454583")]

/-- The redirect and callback URL pair of the canned payload (lines 407-414;
the two literals are identical). -/
def test_url_pair : Val :=
  Val.dict
    [("success", Val.str "https://ecom.example.org/success"),
     ("cancel", Val.str "https://ecom.example.org/cancel")]

/-- get_test_req_create_payment_data (lines 361-416): the canned sandbox
payload substituted in test mode when the caller supplies none. -/
def get_test_req_create_payment_data : Val :=
  Val.dict
    [("stamp", Val.int 29858472952),
     ("reference", Val.int 9187445),
     ("amount", Val.int 1590),
     ("currency", Val.str "EUR"),
     ("language", Val.str "FI"),
     ("items", Val.list [test_payment_item]),
     ("customer", test_customer),
     ("deliveryAddress", test_delivery_address),
     ("invoicingAddress", test_delivery_address),
     ("redirectUrls", test_url_pair),
     ("callbackUrls", test_url_pair)]

/-- The arguments create_payment hands to send_request at line 475.  The
headers field records the **headers kwargs of that call: the source does not
pass headers_dict there, so the kwargs dict is empty. -/
structure SendCall where
  send_method : String
  api_post_url : Option String
  req_input : Option Val
  headers : List (String × Val)

/-- create_payment (lines 418-477).  The validation pipeline in source
order: request id presence, test-mode payload substitution, top-level key
presence, the currency gate (lines 433-435), language validation (the
.upper() at line 439 is re-evaluated and its result discarded), the customer
dict type check (lines 441-445; validate_customer_key_value_in_create_payment
is never invoked), both address validations, the item validation receiving
the WHOLE items list as data_dict (line 451), both URL-pair validations,
then URL and header assembly, signing, merging signature / Content-Type /
Accept into headers_dict, and the send_request call of line 475, which does
not forward headers_dict.  The returned SendCall records that call. -/
def create_payment (self : CheckoutCli) (now_strftime : String)
    (request_id : Option String) (input_data_dict : Option Val)
    (time_stamp_string : Option String) : Except Err SendCall := do
  match request_id with
  | Option.none => Except.error (Err.keyError "Missing unique request id value in request_id parameter")
  | some request_id =>
    let input_data_dict ←
      (if self.is_test_mode = 1 then
        Except.ok (match input_data_dict with
          | Option.none => get_test_req_create_payment_data
          | some d => d)
      else
        match input_data_dict with
        | Option.none => Except.error (Err.keyError "Missing input request parameters")
        | some d => Except.ok d)
    match input_data_dict with
    | Val.dict kwargs => do
      validate_create_payment_input kwargs
      let currency ← Val.getItem (Val.dict kwargs) "currency"
      if valEqStr currency "EUR" then do
        let language ← Val.getItem (Val.dict kwargs) "language"
        validate_language_code2 language
        let _upper_discarded ← Val.getItem (Val.dict kwargs) "language"
        let customer_dict ← Val.getItem (Val.dict kwargs) "customer"
        (match customer_dict with
         | Val.dict _ => Except.ok ()
         | _ => Except.error (Err.valueError "Invalid data type for customer key"))
        let invoicing ← Val.getItem (Val.dict kwargs) "invoicingAddress"
        validate_address_value_in_create_payment invoicing
        let delivery ← Val.getItem (Val.dict kwargs) "deliveryAddress"
        validate_address_value_in_create_payment delivery
        let items ← Val.getItem (Val.dict kwargs) "items"
        validate_item_data_in_create_payment items
        let redirect ← Val.getItem (Val.dict kwargs) "redirectUrls"
        validate_callback_urls_data redirect
        let callback ← Val.getItem (Val.dict kwargs) "callbackUrls"
        validate_callback_urls_data callback
        let post_url ← get_post_url self "Payments" Option.none
        let headers_dict ← get_req_header_dict self now_strftime "Payments" "POST"
          (some request_id) Option.none time_stamp_string
        let signature ← get_hash_sha256 self.secret_key headers_dict Option.none
        let headers_dict := headers_dict ++ [("signature", Val.str signature)]
        let headers_dict := headers_dict ++
          [("Content-Type", Val.str "application/json; charset=utf-8"),
           ("Accept", Val.str "application/json")]
        let _final_headers_unused := headers_dict
        Except.ok { send_method := "POST", api_post_url := post_url,
                    req_input := some (Val.dict kwargs), headers := [] }
      else
        Except.error (Err.valueError "Invalid currency value. Support only EUR.")
    | _ => Except.error (Err.typeError "argument after ** must be a mapping")

/-- Replace the value stored under a key of an embedded dict (a test-fixture
helper; the source never mutates payloads). -/
def dictSet (kvs : List (String × Val)) (key : String) (v : Val) : List (String × Val) :=
  kvs.map (fun kv => if kv.fst = key then (kv.fst, v) else kv)

/-- The canned payload with its currency field replaced;
test_payload_with_currency "EUR" is the canned payload itself. -/
def test_payload_with_currency (c : String) : Val :=
  match get_test_req_create_payment_data with
  | Val.dict kvs => Val.dict (dictSet kvs "currency" (Val.str c))
  | v => v

/-- The canned customer record with the mandatory email sub-field omitted. -/
def customer_without_email : Val :=
  Val.dict
    [("firstName", Val.str "John"),
     ("lastName", Val.str "Doe"),
     ("phone", Val.int 358501234567),
     ("vatId", Val.str "FI02454583")]

/-- The canned payload whose customer record omits email. -/
def test_payload_without_customer_email : Val :=
  match get_test_req_create_payment_data with
  | Val.dict kvs => Val.dict (dictSet kvs "customer" customer_without_email)
  | v => v

/-- An address record missing the mandatory city key. -/
def address_without_city : Val :=
  Val.dict
    [("streetAddress", Val.str "Fake street 123"),
     ("postalCode", Val.str "00100"),
     ("county", Val.str "Norrbotten"),
     ("country", Val.str "SE")]

/-- The canned address with a two-letter lowercase country code. -/
def address_with_short_country : Val :=
  Val.dict
    [("streetAddress", Val.str "Fake street 123"),
     ("postalCode", Val.str "00100"),
     ("city", Val.str "Luleå"),
     ("county", Val.str "Norrbotten"),
     ("country", Val.str "fi")]

/-- The canned item with a string where the int unitPrice belongs. -/
def item_with_string_unit_price : Val :=
  match test_payment_item with
  | Val.dict kvs => Val.dict (dictSet kvs "unitPrice" (Val.str "1590"))
  | v => v

/-- C1: the claim says get_hash_sha256 returns the lowercase hex HMAC-SHA256
digest of the canonical sorted header/body message.  The code cannot: line
133 binds header_dict to the sorted LIST of header keys and line 142 indexes
that list with a string key, raising TypeError for every non-empty header
set; with an empty header set execution reaches line 153 and raises
NameError because sys is never imported (hashlib, needed at line 161, is
unimported too).  This theorem evaluates the embedded function at a concrete
header set (and, for the empty-header path, at every secret and body) and
shows it raises instead of returning a digest. -/
theorem get_hash_sha256_always_raises :
    get_hash_sha256 "SAIPPUAKAUPPIAS"
      [("checkout-account", Val.str "375917"), ("checkout-algorithm", Val.str "sha256")]
      Option.none
      = Except.error (Err.typeError "list indices must be integers or slices, not str")
  ∧ ∀ (secret : String) (body : Option String),
      get_hash_sha256 secret [] body = Except.error (Err.nameError "sys") := by
  refine ⟨rfl, ?_⟩
  intro secret body
  cases body <;> rfl

/-- C2: the claim says create_payment merges the computed signature together
with Content-Type and Accept into the headers and performs the transport
send with that final header set.  In the code the send of line 475 is never
reached: validate_address_value_in_create_payment raises NameError (an
undefined local, line 299) for every payload whose address passes the
mandatory-key check, get_hash_sha256 itself always raises, and even on the
intended path line 475 does not pass headers_dict to send_request, so the
transport would receive an empty **headers dict.  This theorem runs
create_payment in test mode on the canned payload, for every request id,
timestamp argument and clock value, and shows it raises NameError before
any send. -/
theorem create_payment_never_reaches_send :
    ∀ (r now : String) (tss : Option String),
      create_payment test_mode_cli now (some r) Option.none tss
        = Except.error (Err.nameError "value") := by
  intro r now tss
  rfl

/-- C3 counterexample: the claim says live-mode construction fails whenever
the account id or the secret key is absent OR EMPTY.  The code only checks
is-None (lines 47, 51), so constructing with empty-string credentials in
live mode succeeds. -/
theorem init_accepts_empty_credentials :
    CheckoutCli.init 0 (some "") (some "")
      = Except.ok { is_test_mode := 0, base_api_end_point := "https://api.checkout.fi",
                    merchant_id := "", secret_key := "", algorithm := "sha256" } := rfl

/-- C3 amended: test-mode construction ignores any supplied credentials and
always stores the fixed sandbox values; live-mode construction (any mode
other than 1) fails with the missing-credential KeyError exactly when the
account id or the secret key is None, and otherwise stores the supplied
strings, empty or not. -/
theorem init_credential_spec :
    (∀ (mid sk : Option String), CheckoutCli.init 1 mid sk = Except.ok test_mode_cli)
  ∧ (∀ t : Int, t ≠ 1 →
      (∀ sk, CheckoutCli.init t Option.none sk = Except.error (Err.keyError "Missing merchant id"))
    ∧ (∀ m, CheckoutCli.init t (some m) Option.none = Except.error (Err.keyError "Missing secret key"))
    ∧ (∀ m s, CheckoutCli.init t (some m) (some s)
        = Except.ok { is_test_mode := t, base_api_end_point := "https://api.checkout.fi",
                      merchant_id := m, secret_key := s, algorithm := "sha256" })) := by
  constructor
  · intro mid sk; rfl
  · intro t ht
    refine ⟨fun sk => ?_, fun m => ?_, fun m s => ?_⟩ <;> simp [CheckoutCli.init, ht]

/-- C3 witness: the amended construction spec applied in live mode with both
credentials supplied. -/
theorem init_credential_spec_witness :
    CheckoutCli.init 0 (some "merchant-1") (some "secret-1")
      = Except.ok { is_test_mode := 0, base_api_end_point := "https://api.checkout.fi",
                    merchant_id := "merchant-1", secret_key := "secret-1", algorithm := "sha256" } :=
  ((init_credential_spec.2 0 (by decide)).2.2) "merchant-1" "secret-1"

/-- C4: the URL builder maps Payments to base/payments and ListProviders to
base/merchants/payment-providers for any transaction id, maps
PaymentDetails and Refund with a non-empty transaction id to their payment
endpoints, and fails with the missing-parameter ValueError exactly when the
operation is PaymentDetails or Refund and the transaction id is None or
empty. -/
theorem get_post_url_spec :
    ∀ (self : CheckoutCli) (tid : Option String),
      get_post_url self "Payments" tid = Except.ok (some (self.base_api_end_point ++ "/payments"))
    ∧ get_post_url self "ListProviders" tid
        = Except.ok (some (self.base_api_end_point ++ "/merchants/payment-providers"))
    ∧ (∀ t : String, t ≠ "" →
        get_post_url self "PaymentDetails" (some t)
          = Except.ok (some (self.base_api_end_point ++ "/payments/" ++ t))
      ∧ get_post_url self "Refund" (some t)
          = Except.ok (some (self.base_api_end_point ++ "/payments/" ++ t ++ "/refund")))
    ∧ get_post_url self "PaymentDetails" Option.none
        = Except.error (Err.valueError "Undefined transaction id")
    ∧ get_post_url self "PaymentDetails" (some "")
        = Except.error (Err.valueError "Undefined transaction id")
    ∧ get_post_url self "Refund" Option.none
        = Except.error (Err.valueError "Undefined transaction id")
    ∧ get_post_url self "Refund" (some "")
        = Except.error (Err.valueError "Undefined transaction id") := by
  intro self tid
  refine ⟨rfl, rfl, ?_, rfl, rfl, rfl, rfl⟩
  intro t ht
  constructor <;> simp [get_post_url, validate_trans_id_data, ht, Except.bind] <;> rfl

/-- C4 witness: the URL spec applied to the test client at a concrete
transaction id. -/
theorem get_post_url_spec_witness :
    get_post_url test_mode_cli "PaymentDetails" (some "abc123")
      = Except.ok (some (test_mode_cli.base_api_end_point ++ "/payments/" ++ "abc123"))
  ∧ get_post_url test_mode_cli "Refund" (some "abc123")
      = Except.ok (some (test_mode_cli.base_api_end_point ++ "/payments/" ++ "abc123" ++ "/refund"))
  ∧ get_post_url test_mode_cli "Refund" Option.none
      = Except.error (Err.valueError "Undefined transaction id") :=
  ⟨((get_post_url_spec test_mode_cli Option.none).2.2.1 "abc123" (by decide)).1,
   ((get_post_url_spec test_mode_cli Option.none).2.2.1 "abc123" (by decide)).2,
   (get_post_url_spec test_mode_cli Option.none).2.2.2.2.2.1⟩

/-- C5: the claim says a payload whose customer omits email fails with the
missing-mandatory-key error for email before address or item checks.  The
code never calls validate_customer_key_value_in_create_payment (it only
checks type(customer) is dict at lines 441-445), so on the canned payload
with email removed create_payment instead runs on to the address validation
and raises its NameError; the email error is provably not raised.  The
customer validator itself, had it been invoked, would raise exactly that
error. -/
theorem create_payment_missing_email_not_detected :
    (∀ (r now : String) (tss : Option String),
      create_payment test_mode_cli now (some r) (some test_payload_without_customer_email) tss
        = Except.error (Err.nameError "value"))
  ∧ (∀ (r now : String) (tss : Option String),
      create_payment test_mode_cli now (some r) (some test_payload_without_customer_email) tss
        ≠ Except.error (Err.keyError "Missing mandatory key: email"))
  ∧ validate_customer_key_value_in_create_payment customer_without_email
      = Except.error (Err.keyError "Missing mandatory key: email") := by
  refine ⟨fun r now tss => rfl, fun r now tss h => ?_, rfl⟩
  rw [(rfl : create_payment test_mode_cli now (some r) (some test_payload_without_customer_email) tss
        = Except.error (Err.nameError "value"))] at h
  injection h with h2
  exact Err.noConfusion h2

/-- C6: the claim says each element of the items sequence is validated
independently, with int checks reported as the invalid-numeric-type error.
The item validator does behave that way on a single item dict (second and
third conjuncts), but create_payment (line 451) passes the WHOLE items list
as data_dict, and the membership test of a string key in a list of dicts is
false, so even a fully valid one-item list is rejected with the
missing-mandatory-key error for unitPrice (first conjunct); no element is
ever validated. -/
theorem validate_item_receives_whole_list :
    validate_item_data_in_create_payment (Val.list [test_payment_item])
      = Except.error (Err.keyError "Missing mandatory key: unitPrice")
  ∧ validate_item_data_in_create_payment test_payment_item = Except.ok ()
  ∧ validate_item_data_in_create_payment item_with_string_unit_price
      = Except.error (Err.valueError "Expect int value in unitPrice parameter") :=
  ⟨rfl, rfl, rfl⟩

/-- C7: the claim says a country longer than 2 characters is rejected with
the invalid-country-code error and an accepted code is returned uppercased.
In the code, every address that passes the mandatory-key check raises
NameError at line 299 (the local value of validate_data_dict is not in
scope), so the canned address with country Sweden and an address with a
short lowercase country both raise NameError rather than the claimed
behavior; the length check and the (result-discarding) .upper() of line 307
are unreachable.  The mandatory-key part of the claim does hold: an address
missing city is rejected with the missing-mandatory-key error. -/
theorem validate_address_raises_name_error :
    validate_address_value_in_create_payment test_delivery_address
      = Except.error (Err.nameError "value")
  ∧ validate_address_value_in_create_payment address_with_short_country
      = Except.error (Err.nameError "value")
  ∧ validate_address_value_in_create_payment address_without_city
      = Except.error (Err.keyError "Missing mandatory key: city") :=
  ⟨rfl, rfl, rfl⟩

/-- C8 counterexample: the claim says a non-2xx response fails with an error
carrying the status code and the raw body.  The raise of line 210 wraps only
the body: two responses with the same body and different status codes (400
and 500) produce the identical error value, equal to the exception holding
just the body, so the status code is provably not carried. -/
theorem send_request_error_omits_status :
    send_request "POST" (some "https://api.checkout.fi/payments") Option.none []
      { status_code := 400, content := "\x7b\"error\":\"bad request\"\x7d" }
    = send_request "POST" (some "https://api.checkout.fi/payments") Option.none []
      { status_code := 500, content := "\x7b\"error\":\"bad request\"\x7d" }
  ∧ send_request "POST" (some "https://api.checkout.fi/payments") Option.none []
      { status_code := 400, content := "\x7b\"error\":\"bad request\"\x7d" }
    = Except.error (Err.exception "\x7b\"error\":\"bad request\"\x7d") := ⟨rfl, rfl⟩

/-- C8 amended: for every transport response, send_request returns the
response unchanged when the status code is 200 or 201 and otherwise fails
with the exception carrying the raw response body only (no retry exists: the
embedded handler consumes exactly one transport response). -/
theorem send_request_spec :
    ∀ (method u : String) (inp : Option Val) (hdrs : List (String × Val)) (res : HttpResponse),
      u ≠ "" →
      ((res.status_code = 200 ∨ res.status_code = 201) →
        send_request method (some u) inp hdrs res = Except.ok res)
    ∧ (res.status_code ≠ 200 → res.status_code ≠ 201 →
        send_request method (some u) inp hdrs res = Except.error (Err.exception res.content)) := by
  intro method u inp hdrs res hu
  constructor
  · intro h2
    simp only [send_request]
    rw [if_neg hu, if_neg]
    intro hc
    exact h2.elim (fun e => hc.1 e) (fun e => hc.2 e)
  · intro h200 h201
    simp only [send_request]
    rw [if_neg hu, if_pos ⟨h200, h201⟩]

/-- C8 witness: the response handling spec applied to a 201 response and to
a 404 response. -/
theorem send_request_spec_witness :
    send_request "POST" (some "https://api.checkout.fi/payments") Option.none []
      { status_code := 201, content := "created" }
      = Except.ok { status_code := 201, content := "created" }
  ∧ send_request "GET" (some "https://api.checkout.fi/payments/tid") Option.none []
      { status_code := 404, content := "not found" }
      = Except.error (Err.exception "not found") :=
  ⟨(send_request_spec "POST" "https://api.checkout.fi/payments" Option.none []
      { status_code := 201, content := "created" } (by decide)).1 (Or.inr rfl),
   (send_request_spec "GET" "https://api.checkout.fi/payments/tid" Option.none []
      { status_code := 404, content := "not found" } (by decide)).2 (by decide) (by decide)⟩

/-- C9: on the canned payload with the currency field replaced, any currency
other than EUR is rejected by create_payment with the unsupported-currency
ValueError (lines 433-435), and with currency EUR the currency stage is
passed: the run provably does not end in the currency error (it fails later,
in the address validation). -/
theorem create_payment_currency_gate :
    (∀ c : String, c ≠ "EUR" → ∀ (r now : String) (tss : Option String),
      create_payment test_mode_cli now (some r) (some (test_payload_with_currency c)) tss
        = Except.error (Err.valueError "Invalid currency value. Support only EUR."))
  ∧ (∀ (r now : String) (tss : Option String),
      create_payment test_mode_cli now (some r) (some (test_payload_with_currency "EUR")) tss
        ≠ Except.error (Err.valueError "Invalid currency value. Support only EUR.")) := by
  constructor
  · intro c hc r now tss
    have key : create_payment test_mode_cli now (some r) (some (test_payload_with_currency c)) tss
        = (if (valEqStr (Val.str c) "EUR") = true then Except.error (Err.nameError "value")
           else Except.error (Err.valueError "Invalid currency value. Support only EUR.")) := rfl
    have hb : valEqStr (Val.str c) "EUR" = false := decide_eq_false hc
    rw [key, hb]
    rfl
  · intro r now tss h
    rw [(rfl : create_payment test_mode_cli now (some r) (some (test_payload_with_currency "EUR")) tss
          = Except.error (Err.nameError "value"))] at h
    injection h with h2
    exact Err.noConfusion h2

/-- C9 witness: the currency gate applied to the USD payload. -/
theorem create_payment_currency_gate_witness :
    create_payment test_mode_cli "2020-01-01T000000" (some "req-1")
      (some (test_payload_with_currency "USD")) Option.none
      = Except.error (Err.valueError "Invalid currency value. Support only EUR.") :=
  create_payment_currency_gate.1 "USD" (by decide) "req-1" "2020-01-01T000000" Option.none

/-- C10: every call to get_req_header_dict with a non-None
time_stamp_string fails with an uncaught error (either one of the earlier
argument checks raises, or line 111 reads the unassigned local time_stamp
and raises UnboundLocalError), and whenever the call succeeds the
checkout-timestamp header holds the internally generated local-time string
and the caller supplied no timestamp. -/
theorem get_req_header_dict_timestamp_spec :
    (∀ (self : CheckoutCli) (now api method : String) (rid tid : Option String) (s : String),
      isErr (get_req_header_dict self now api method rid tid (some s)) = true)
  ∧ (∀ (self : CheckoutCli) (now api method : String) (rid tid tss : Option String)
        (h : List (String × Val)),
      get_req_header_dict self now api method rid tid tss = Except.ok h →
        tss = Option.none ∧ dictGet h "checkout-timestamp" = some (Val.str now)) := by
  constructor
  · intro self now api method rid tid s
    unfold get_req_header_dict
    split
    · split
      · rfl
      · rfl
    · rfl
  · intro self now api method rid tid tss h hok
    unfold get_req_header_dict at hok
    split at hok
    · split at hok
      · exact Except.noConfusion hok
      · cases tss with
        | some s => exact Except.noConfusion hok
        | none =>
          refine ⟨rfl, ?_⟩
          injection hok with h1
          rw [← h1]
          rfl
    · exact Except.noConfusion hok

/-- C10 witness: the header-builder spec applied concretely, once to a call
with a supplied timestamp (it fails) and once to a succeeding call (the
timestamp header is the generated clock string). -/
theorem get_req_header_dict_timestamp_spec_witness :
    isErr (get_req_header_dict test_mode_cli "2020-01-01T000000" "Payments" "POST"
      (some "req-1") Option.none (some "2018-01-01T000000")) = true
  ∧ ((Option.none : Option String) = Option.none
    ∧ dictGet
        [("checkout-account", Val.str "375917"), ("checkout-algorithm", Val.str "sha256"),
         ("checkout-method", Val.str "POST"), ("checkout-nonce", Val.str "req-1"),
         ("checkout-timestamp", Val.str "2020-01-01T000000")] "checkout-timestamp"
      = some (Val.str "2020-01-01T000000")) :=
  ⟨get_req_header_dict_timestamp_spec.1 test_mode_cli "2020-01-01T000000" "Payments" "POST"
    (some "req-1") Option.none "2018-01-01T000000",
   get_req_header_dict_timestamp_spec.2 test_mode_cli "2020-01-01T000000" "Payments" "POST"
    (some "req-1") Option.none Option.none
    [("checkout-account", Val.str "375917"), ("checkout-algorithm", Val.str "sha256"),
     ("checkout-method", Val.str "POST"), ("checkout-nonce", Val.str "req-1"),
     ("checkout-timestamp", Val.str "2020-01-01T000000")] rfl⟩
